import Mathlib

/-!
Verification of the Linux-Arctis-7-Plus-ChatMix daemon against its design
specification.  The development shallowly embeds the two Python source
variants (`Arctis_7_Plus_ChatMix.py` and `AllSound7P_ChatMix.py`): external
side-effecting calls to the audio service (`pw-cli`, `pw-link`, `wpctl`)
become elements of a command trace, USB endpoint reads become an event list,
and the control flow of the polling loop, provisioning and teardown code is
translated function by function.
-/

/-- Commands issued to the external audio service (pw-cli / pw-link / wpctl
invocations), recorded as a trace instead of executed. -/
inductive Cmd
  | setVolume (id : String) (level : ℚ)
  | setDefault (id : String)
  | destroySink (name : String)
  | createSink (name : String)
  | linkPorts (src dst : String)
  deriving DecidableEq, Repr

/-- Outcomes of one `self.dev.read(self.addr, 64, timeout=1000)` call in the
polling loop: a successful 64-byte report (of which only offsets 1 and 2 are
decoded), a `usb.core.USBTimeoutError`, or any other `usb.core.USBError`. -/
inductive UsbEvent
  | timeout
  | report (game chat : Nat)
  | fatalError
  deriving DecidableEq, Repr

/-- The two sink identifiers resolved during provisioning
(`self.arctis_game_id` / `self.arctis_chat_id`, or the `chatmix_*` pair in
the AllSound variant): `none` models Python `None`, `some s` a matched
regex group. -/
structure SinkIds where
  gameId : Option String
  chatId : Option String
  deriving DecidableEq, Repr

/-- The debounce memory of the Arctis-variant polling loop
(`last_game_vol` / `last_chat_vol`, both initialized to `None`). -/
structure LoopState where
  lastGame : Option Nat
  lastChat : Option Nat
  deriving DecidableEq, Repr

/-- Python truthiness of an optional string attribute: `None` and the empty
string are falsy, any other string is truthy. -/
def truthy : Option String → Bool
  | none => false
  | some s => !s.isEmpty

/-- Volume decoding of `Arctis_7_Plus_ChatMix.py` lines 303-304 (and
`AllSound7P_ChatMix.py` lines 278-279): `read_input[k] / 100.0`, the raw
byte divided by 100 to the normalized scale wpctl expects. -/
def normalizeVolume (v : Nat) : ℚ := (v : ℚ) / 100

/-- The command-issuing block of the polling loop
(`Arctis_7_Plus_ChatMix.py` lines 307-310, identical in
`AllSound7P_ChatMix.py` lines 282-285): `if self.arctis_game_id:` issue a
set-volume for the game sink, `if self.arctis_chat_id:` issue one for the
chat sink; an unresolved (`None`) identifier is skipped silently. -/
def volumeCmds (ids : SinkIds) (game chat : Nat) : List Cmd :=
  (match ids.gameId with
    | some g => if g = "" then [] else [Cmd.setVolume g (normalizeVolume game)]
    | none => []) ++
  (match ids.chatId with
    | some c => if c = "" then [] else [Cmd.setVolume c (normalizeVolume chat)]
    | none => [])

/-- One successful report iteration of the Arctis-variant polling loop
(`Arctis_7_Plus_ChatMix.py` lines 296-313): if either decoded value differs
from the last-applied one (`game_val != last_game_vol or chat_val !=
last_chat_vol`; the initial `None`s differ from every byte), issue the
commands for the resolved sinks and update both last-applied values;
otherwise do nothing. -/
def processReport (ids : SinkIds) (st : LoopState) (game chat : Nat) :
    LoopState × List Cmd :=
  if st.lastGame ≠ some game ∨ st.lastChat ≠ some chat then
    (⟨some game, some chat⟩, volumeCmds ids game chat)
  else
    (st, [])

/-- The Arctis-variant `while True` polling loop
(`Arctis_7_Plus_ChatMix.py` lines 291-318) over a finite prefix of USB read
outcomes, returning the trace of issued commands: a timeout is silently
retried (`except usb.core.USBTimeoutError: pass`), any other USB error
logs and `break`s out of the loop, ending the trace. -/
def runLoop (ids : SinkIds) : LoopState → List UsbEvent → List Cmd
  | _, [] => []
  | st, UsbEvent.timeout :: rest => runLoop ids st rest
  | st, UsbEvent.report g c :: rest =>
      let r := processReport ids st g c
      r.2 ++ runLoop ids r.1 rest
  | _, UsbEvent.fatalError :: _ => []

/-- Command trace of the whole Arctis-variant `__main__` after provisioning
succeeded: lines 357-359 run `start_modulator_signal()` and nothing else,
so once the loop returns (its only exit is the fatal-USB-error `break`) the
script ends without any further call — in particular without
`die_gracefully` — and the post-provision trace is exactly the loop's. -/
def arctisMainTrace (ids : SinkIds) (events : List UsbEvent) : List Cmd :=
  runLoop ids ⟨none, none⟩ events

/-- Per-iteration command lists of the Arctis-variant loop over a sequence
of successfully decoded report pairs (no timeouts or errors interleaved). -/
def arctisStepLists (ids : SinkIds) : LoopState → List (Nat × Nat) → List (List Cmd)
  | _, [] => []
  | st, p :: rest =>
      let r := processReport ids st p.1 p.2
      r.2 :: arctisStepLists ids r.1 rest

/-- Per-iteration command lists of the AllSound-variant loop
(`AllSound7P_ChatMix.py` lines 272-290): every successfully read report
issues the commands for the resolved sinks, with no debounce memory. -/
def allsoundStepLists (ids : SinkIds) (pairs : List (Nat × Nat)) : List (List Cmd) :=
  pairs.map fun p => volumeCmds ids p.1 p.2

/-- Number of command-issuing iterations in a per-step trace. -/
def issuingSteps (steps : List (List Cmd)) : Nat :=
  (steps.filter fun l => !l.isEmpty).length

/-- Modelled from the spec: the number of indices at which a report pair
differs from the previous pair, the first pair always counting as a change
(`prev` is the pair before the sequence, `none` at the start of the loop). -/
def changedSteps : Option (Nat × Nat) → List (Nat × Nat) → Nat
  | _, [] => 0
  | prev, p :: rest => (if some p ≠ prev then 1 else 0) + changedSteps (some p) rest

/-- Loop state corresponding to an abstract previous pair. -/
def stateOf : Option (Nat × Nat) → LoopState
  | none => ⟨none, none⟩
  | some p => ⟨some p.1, some p.2⟩

/-- Model of `usb.core.find(idVendor=v, idProduct=p)`: the first enumerated
device (represented by its (vendor, product) identity pair) matching the
requested pair, or `none`; note that no match returns `None` in Python
rather than raising. -/
def usbFind : List (Nat × Nat) → Nat → Nat → Option (Nat × Nat)
  | [], _, _ => none
  | d :: rest, v, p => if d.1 = v ∧ d.2 = p then some d else usbFind rest v p

/-- Device selection of `Arctis_7_Plus_ChatMix.py` lines 61-62:
`usb.core.find(idVendor=0x1038, idProduct=0x220e) or
usb.core.find(idVendor=0x1038, idProduct=0x227a)` — Python `or` takes the
left operand when it is truthy (a device object), so the 0x220e pair is
tried over the whole enumeration before the 0x227a pair is consulted. -/
def locateDevice (devices : List (Nat × Nat)) : Option (Nat × Nat) :=
  match usbFind devices 0x1038 0x220e with
  | some d => some d
  | none => usbFind devices 0x1038 0x227a

/-- Modelled from the spec: "the first device enumerated that matches any
pair is selected" — the first device whose identity pair is in the known
set {(0x1038, 0x220e), (0x1038, 0x227a)}. -/
def firstMatchAnyPair : List (Nat × Nat) → Option (Nat × Nat)
  | [] => none
  | d :: rest =>
      if d = (0x1038, 0x220e) ∨ d = (0x1038, 0x227a) then some d
      else firstMatchAnyPair rest

/-- How `__init__` fails when no device matches. -/
inductive InitFailure
  | uncaughtTypeError
  deriving DecidableEq, Repr

/-- Outcome of the device-location phase of `__init__`
(`Arctis_7_Plus_ChatMix.py` lines 59-84).  When no attached device matches,
`usb.core.find` returns `None` without raising, so the first `except`
branch (trigger "Couldn't find arctis7 model") is not taken; execution
reaches `self.dev[0]` which raises `TypeError` on `None`; its handler then
calls `self.die_gracefully(exc=True, trigger=...)`, but `die_gracefully`
accepts no `exc` keyword, so that call itself raises `TypeError` inside the
handler and the exception escapes `__init__` uncaught: the interpreter
exits with code 1, `die_gracefully` never runs, and no audio-service
command has been issued (empty trace). -/
def locateAndInit (devices : List (Nat × Nat)) :
    Except (InitFailure × List Cmd × Nat) (Nat × Nat) :=
  match locateDevice devices with
  | some d => Except.ok d
  | none => Except.error (InitFailure.uncaughtTypeError, [], 1)

/-- Retry bound of `wait_for_pipewire` (`max_attempts=10`). -/
def pipewireMaxAttempts : Nat := 10

/-- Fixed inter-attempt delay of `wait_for_pipewire` (`delay=0.5` seconds). -/
def pipewireRetryDelay : ℚ := 1 / 2

/-- The `for attempt in range(max_attempts)` loop of `wait_for_pipewire`
(`Arctis_7_Plus_ChatMix.py` lines 36-46): `good i` abstracts whether the
i-th `pw-dump` probe returned a well-formed reachable answer (non-empty,
not containing a connection refusal, starting with a JSON array); return
`True` at the first good attempt, `False` after the last attempt. -/
def waitLoop (good : Nat → Bool) : Nat → Nat → Bool
  | _, 0 => false
  | attempt, remaining + 1 =>
      if good attempt then true else waitLoop good (attempt + 1) remaining

/-- Model of `wait_for_pipewire()` with its default arguments. -/
def waitForPipewire (good : Nat → Bool) : Bool :=
  waitLoop good 0 pipewireMaxAttempts

/-- Attributes of the session consulted by the Arctis-variant
`die_gracefully`: the captured pre-session default sink id and name
(`none` models an attribute that was never set, so `hasattr` is false),
and the result of the wpctl-status name lookup performed at teardown time
(external input). -/
structure TeardownCtx where
  systemDefaultSinkId : Option String
  systemDefaultSink : Option String
  lookupIdByName : Option String
  deriving DecidableEq, Repr

/-- Result of a teardown run: the audio-service commands it issued, the
process exit code, and the logged failure reason (the `trigger`, printed
as "Failure reason: ..." when present). -/
structure TeardownResult where
  cmds : List Cmd
  exitCode : Nat
  failureReason : Option String
  deriving DecidableEq, Repr

/-- The `elif` fallback of the restore block (`Arctis_7_Plus_ChatMix.py`
lines 332-337): when the name attribute exists and is not "auto", look the
id up in `wpctl status` output and set-default on a match. -/
def restoreByName (ctx : TeardownCtx) : List Cmd :=
  match ctx.systemDefaultSink with
  | some name =>
      if name ≠ "auto" then
        match ctx.lookupIdByName with
        | some lid => [Cmd.setDefault lid]
        | none => []
      else []
  | none => []

/-- The Arctis-variant `die_gracefully` (`Arctis_7_Plus_ChatMix.py` lines
323-354): restore the pre-session default (by captured id if truthy, else
by name lookup), destroy both virtual sinks unless `sink_creation_fail`
was passed, then exit 1 with the logged trigger or 0 without one. -/
def dieGracefully (ctx : TeardownCtx) (sinkCreationFail : Bool)
    (trigger : Option String) : TeardownResult :=
  let restore : List Cmd :=
    if truthy ctx.systemDefaultSinkId then
      [Cmd.setDefault (ctx.systemDefaultSinkId.getD "")]
    else restoreByName ctx
  let destroys : List Cmd :=
    if sinkCreationFail = false then
      [Cmd.destroySink "Arctis_Game", Cmd.destroySink "Arctis_Chat"]
    else []
  { cmds := restore ++ destroys
    exitCode := if trigger.isSome then 1 else 0
    failureReason := trigger }

/-- The AllSound-variant `die_gracefully` (`AllSound7P_ChatMix.py` lines
295-318): its default-restoration line is commented out (line 301), so the
captured pre-session default sink name is ignored; it only destroys the two
sinks unless `sink_creation_fail` was passed, then exits. -/
def dieGracefullyAllSound (_systemDefaultSink : Option String)
    (sinkCreationFail : Bool) (trigger : Option String) : TeardownResult :=
  let destroys : List Cmd :=
    if sinkCreationFail = false then
      [Cmd.destroySink "ChatMix_Game", Cmd.destroySink "ChatMix_Chat"]
    else []
  { cmds := destroys
    exitCode := if trigger.isSome then 1 else 0
    failureReason := trigger }

/-- The sink-creation failure branch of the Arctis `_init_VAC`
(line 226): `self.die_gracefully(sink_creation_fail=True,
trigger="VAC node adapter")`. -/
def sinkCreationFailureShutdown (ctx : TeardownCtx) : TeardownResult :=
  dieGracefully ctx true (some "VAC node adapter")

/-- The sink-creation failure branch of the AllSound `_init_VAC`
(line 212). -/
def sinkCreationFailureShutdownAllSound (systemDefaultSink : Option String) :
    TeardownResult :=
  dieGracefullyAllSound systemDefaultSink true (some "VAC node adapter")

/-- The pipewire-availability gate at the top of `_init_VAC`
(`Arctis_7_Plus_ChatMix.py` lines 107-113): when `wait_for_pipewire()`
returns False, call `die_gracefully(trigger="PipeWire not available")`; at
that point neither default-sink attribute has been set yet, so the
teardown context is empty. -/
def initVacGate (good : Nat → Bool) : Option TeardownResult :=
  if waitForPipewire good then none
  else some (dieGracefully ⟨none, none, none⟩ false (some "PipeWire not available"))

/-- The linking section of the Arctis `_init_VAC` (lines 159-184 and
229-242): the link target `default_sink` is the Arctis-branded hardware
sink when the regex scan identified one (a truthy `arctis_device`),
falling back to the captured system default otherwise; both virtual sinks'
FL and FR monitors are linked to the target's playback ports. -/
def arctisLinkSection (systemDefault : String) (arctisDevice : Option String) :
    List Cmd :=
  let defaultSink :=
    match arctisDevice with
    | some a => if a = "" then systemDefault else a
    | none => systemDefault
  [Cmd.linkPorts "Arctis_Game:monitor_FL" (defaultSink ++ ":playback_FL"),
   Cmd.linkPorts "Arctis_Game:monitor_FR" (defaultSink ++ ":playback_FR"),
   Cmd.linkPorts "Arctis_Chat:monitor_FL" (defaultSink ++ ":playback_FL"),
   Cmd.linkPorts "Arctis_Chat:monitor_FR" (defaultSink ++ ":playback_FR")]

/-- The linking section of the AllSound `_init_VAC` (lines 214-229): the
target is always the captured system default. -/
def allsoundLinkSection (systemDefault : String) : List Cmd :=
  [Cmd.linkPorts "ChatMix_Game:monitor_FL" (systemDefault ++ ":playback_FL"),
   Cmd.linkPorts "ChatMix_Game:monitor_FR" (systemDefault ++ ":playback_FR"),
   Cmd.linkPorts "ChatMix_Chat:monitor_FL" (systemDefault ++ ":playback_FL"),
   Cmd.linkPorts "ChatMix_Chat:monitor_FR" (systemDefault ++ ":playback_FR")]

/-- Modelled from the spec: "link each new sink's monitor outputs (left and
right) to the pre-session default output's corresponding playback ports",
for the Arctis variant's sink names and a given target. -/
def arctisSpecLinks (target : String) : List Cmd :=
  [Cmd.linkPorts "Arctis_Game:monitor_FL" (target ++ ":playback_FL"),
   Cmd.linkPorts "Arctis_Game:monitor_FR" (target ++ ":playback_FR"),
   Cmd.linkPorts "Arctis_Chat:monitor_FL" (target ++ ":playback_FL"),
   Cmd.linkPorts "Arctis_Chat:monitor_FR" (target ++ ":playback_FR")]

/-- Modelled from the spec: the same linking requirement for the AllSound
variant's sink names. -/
def allsoundSpecLinks (target : String) : List Cmd :=
  [Cmd.linkPorts "ChatMix_Game:monitor_FL" (target ++ ":playback_FL"),
   Cmd.linkPorts "ChatMix_Game:monitor_FR" (target ++ ":playback_FR"),
   Cmd.linkPorts "ChatMix_Chat:monitor_FL" (target ++ ":playback_FL"),
   Cmd.linkPorts "ChatMix_Chat:monitor_FR" (target ++ ":playback_FR")]

/-- Atomic external actions of the teardown routine, for the signal
interleaving model: the conditional default-restore, the two sink
destroys, and the final `sys.exit`. -/
inductive TAct
  | restore
  | destroyGame
  | destroyChat
  | exitProc
  deriving DecidableEq, Repr

/-- The action sequence of one `die_gracefully` invocation. -/
def teardownSeq : List TAct :=
  [TAct.restore, TAct.destroyGame, TAct.destroyChat, TAct.exitProc]

/-- Small-step interpreter for teardown under asynchronous SIGTERM
delivery, reflecting CPython signal semantics: the handler installed at
`Arctis_7_Plus_ChatMix.py` line 53 stays installed and simply calls
`die_gracefully()` (lines 320-321) with no one-shot guard, so a signal
arriving between two bytecodes of an in-progress teardown re-enters the
whole sequence on top of it.  The configuration is a stack of in-progress
invocation frames; at each step the schedule says whether a pending SIGTERM
is delivered (pushing a fresh `teardownSeq` frame) or the next action of
the top frame executes.  `sys.exit` raises SystemExit, which unwinds every
outer frame, so `exitProc` ends the run. -/
def shutdownMachine : Nat → List Bool → List (List TAct) → List TAct
  | 0, _, _ => []
  | _ + 1, _, [] => []
  | fuel + 1, sched, frame :: rest =>
      if sched.headD false then
        shutdownMachine fuel sched.tail (teardownSeq :: frame :: rest)
      else
        match frame with
        | [] => shutdownMachine fuel sched.tail rest
        | TAct.exitProc :: _ => [TAct.exitProc]
        | a :: tailFrame => a :: shutdownMachine fuel sched.tail (tailFrame :: rest)

/-- Total occurrences of an action in the pending frames of a stack. -/
def stackCount (a : TAct) (stack : List (List TAct)) : Nat :=
  (stack.map fun f => f.count a).sum

/-- Detects a sink-destruction command in a trace. -/
def isDestroy : Cmd → Bool
  | Cmd.destroySink _ => true
  | _ => false

theorem volumeCmds_no_destroy (ids : SinkIds) (g c : Nat) :
    (volumeCmds ids g c).filter isDestroy = [] := by
  obtain ⟨gi, ci⟩ := ids
  cases gi <;> cases ci <;>
    simp only [volumeCmds, List.filter_append] <;>
    first
      | rfl
      | (split <;> split <;> rfl)
      | (split <;> rfl)

theorem processReport_no_destroy (ids : SinkIds) (st : LoopState) (g c : Nat) :
    ((processReport ids st g c).2).filter isDestroy = [] := by
  unfold processReport
  split <;> simp [volumeCmds_no_destroy]

theorem runLoop_no_destroy (ids : SinkIds) (events : List UsbEvent) :
    ∀ st, (runLoop ids st events).filter isDestroy = [] := by
  induction events with
  | nil => intro st; rfl
  | cons e rest ih =>
    intro st
    cases e with
    | timeout => exact ih st
    | fatalError => rfl
    | report g c =>
      show ((processReport ids st g c).2 ++
        runLoop ids (processReport ids st g c).1 rest).filter isDestroy = []
      rw [List.filter_append, processReport_no_destroy, ih]
      rfl

theorem issuingSteps_cons (l : List Cmd) (ls : List (List Cmd)) :
    issuingSteps (l :: ls) = (if l.isEmpty then 0 else 1) + issuingSteps ls := by
  unfold issuingSteps
  rw [List.filter_cons]
  by_cases h : l.isEmpty
  · simp [h]
  · simp [h]
    omega

theorem arctis_issuing (ids : SinkIds) (hne : ∀ a b, volumeCmds ids a b ≠ []) :
    ∀ (pairs : List (Nat × Nat)) (prev : Option (Nat × Nat)),
      issuingSteps (arctisStepLists ids (stateOf prev) pairs) = changedSteps prev pairs := by
  intro pairs
  induction pairs with
  | nil => intro prev; rfl
  | cons p rest ih =>
    intro prev
    simp only [arctisStepLists, changedSteps]
    cases prev with
    | none =>
      have hc : (stateOf none).lastGame ≠ some p.1 ∨ (stateOf none).lastChat ≠ some p.2 := by
        simp [stateOf]
      rw [processReport, if_pos hc, issuingSteps_cons]
      have h1 : (volumeCmds ids p.1 p.2).isEmpty = false := by
        cases hEq : (volumeCmds ids p.1 p.2).isEmpty
        · rfl
        · exact absurd (List.isEmpty_iff.mp hEq) (hne p.1 p.2)
      rw [h1]
      have h2 : (some p ≠ (none : Option (Nat × Nat))) := by simp
      rw [if_pos h2]
      have := ih (some p)
      simp only [stateOf] at this ⊢
      rw [this]
      simp
    | some q =>
      by_cases hpq : p = q
      · subst hpq
        have hc : ¬((stateOf (some p)).lastGame ≠ some p.1 ∨
            (stateOf (some p)).lastChat ≠ some p.2) := by
          simp [stateOf]
        rw [processReport, if_neg hc, issuingSteps_cons]
        simp only [List.isEmpty_nil, if_true]
        have h2 : ¬(some p ≠ some p) := by simp
        rw [if_neg h2]
        have := ih (some p)
        simpa using this
      · have hc : (stateOf (some q)).lastGame ≠ some p.1 ∨
            (stateOf (some q)).lastChat ≠ some p.2 := by
          simp only [stateOf, ne_eq, Option.some.injEq]
          by_contra hcon
          push_neg at hcon
          exact hpq (Prod.ext hcon.1.symm hcon.2.symm)
        rw [processReport, if_pos hc, issuingSteps_cons]
        have h1 : (volumeCmds ids p.1 p.2).isEmpty = false := by
          cases hEq : (volumeCmds ids p.1 p.2).isEmpty
          · rfl
          · exact absurd (List.isEmpty_iff.mp hEq) (hne p.1 p.2)
        rw [h1]
        have h2 : (some p ≠ some q) := by simp [hpq]
        rw [if_pos h2]
        have := ih (some p)
        simp only [stateOf] at this ⊢
        rw [this]
        simp

theorem shutdownMachine_count_le (a : TAct) :
    ∀ (fuel : Nat) (sched : List Bool) (stack : List (List TAct)),
      (∀ b ∈ sched, b = false) →
      (shutdownMachine fuel sched stack).count a ≤ stackCount a stack := by
  intro fuel
  induction fuel with
  | zero =>
    intro sched stack _
    simp [shutdownMachine]
  | succ n ih =>
    intro sched stack h
    have hd : sched.headD false = false := by
      cases sched with
      | nil => rfl
      | cons b bs => exact h b (List.mem_cons_self b bs)
    have htail : ∀ b ∈ sched.tail, b = false := fun b hb =>
      h b (List.mem_of_mem_tail hb)
    match stack with
    | [] => simp [shutdownMachine]
    | frame :: rest =>
      have hstep : shutdownMachine (n + 1) sched (frame :: rest) =
          (match frame with
          | [] => shutdownMachine n sched.tail rest
          | TAct.exitProc :: _ => [TAct.exitProc]
          | x :: tailFrame => x :: shutdownMachine n sched.tail (tailFrame :: rest)) := by
        cases sched with
        | nil => rfl
        | cons b bs =>
          have hb : b = false := h b (List.mem_cons_self b bs)
          subst hb
          rfl
      rw [hstep]
      match frame with
      | [] =>
        calc (shutdownMachine n sched.tail rest).count a
            ≤ stackCount a rest := ih sched.tail rest htail
          _ ≤ stackCount a ([] :: rest) := by simp [stackCount]
      | TAct.exitProc :: f =>
        have : ([TAct.exitProc].count a) ≤ (TAct.exitProc :: f).count a := by
          rw [List.count_cons, List.count_cons]
          simp
        calc ([TAct.exitProc].count a)
            ≤ (TAct.exitProc :: f).count a := this
          _ ≤ stackCount a ((TAct.exitProc :: f) :: rest) := by simp [stackCount]
      | TAct.restore :: f =>
        rw [List.count_cons]
        have := ih sched.tail (f :: rest) htail
        simp only [stackCount, List.map_cons, List.sum_cons, List.count_cons] at this ⊢
        omega
      | TAct.destroyGame :: f =>
        rw [List.count_cons]
        have := ih sched.tail (f :: rest) htail
        simp only [stackCount, List.map_cons, List.sum_cons, List.count_cons] at this ⊢
        omega
      | TAct.destroyChat :: f =>
        rw [List.count_cons]
        have := ih sched.tail (f :: rest) htail
        simp only [stackCount, List.map_cons, List.sum_cons, List.count_cons] at this ⊢
        omega

theorem waitLoop_congr (g1 g2 : Nat → Bool) :
    ∀ (remaining attempt : Nat),
      (∀ i, attempt ≤ i → i < attempt + remaining → g1 i = g2 i) →
      waitLoop g1 attempt remaining = waitLoop g2 attempt remaining := by
  intro remaining
  induction remaining with
  | zero => intro a _; rfl
  | succ n ih =>
    intro a h
    have h0 : g1 a = g2 a := h a (Nat.le_refl a) (by omega)
    rw [waitLoop, waitLoop, h0]
    cases hg : g2 a with
    | true => rfl
    | false =>
      simp only [Bool.false_eq_true, if_false]
      exact ih (a + 1) fun i h1 h2 => h i (by omega) (by omega)

theorem usbFind_eq_none (v p : Nat) :
    ∀ devices : List (Nat × Nat), (∀ d ∈ devices, ¬(d.1 = v ∧ d.2 = p)) →
      usbFind devices v p = none := by
  intro devices
  induction devices with
  | nil => intro _; rfl
  | cons d rest ih =>
    intro h
    rw [usbFind, if_neg (h d (List.mem_cons_self d rest))]
    exact ih fun x hx => h x (List.mem_cons_of_mem _ hx)

theorem usbFind_isSome (v p : Nat) :
    ∀ devices : List (Nat × Nat), (v, p) ∈ devices → (usbFind devices v p).isSome := by
  intro devices
  induction devices with
  | nil => intro h; exact absurd h (List.not_mem_nil _)
  | cons d rest ih =>
    intro h
    rw [usbFind]
    by_cases hd : d.1 = v ∧ d.2 = p
    · rw [if_pos hd]; rfl
    · rw [if_neg hd]
      rcases List.mem_cons.mp h with h1 | h1
      · exact absurd (by rw [← h1]; exact ⟨rfl, rfl⟩) hd
      · exact ih h1

theorem volumeCmds_game_only (g : String) (hg : g ≠ "") (a b : Nat) :
    volumeCmds ⟨some g, none⟩ a b = [Cmd.setVolume g (normalizeVolume a)] := by
  simp [volumeCmds, hg]

theorem volumeCmds_chat_only (g : String) (hg : g ≠ "") (a b : Nat) :
    volumeCmds ⟨none, some g⟩ a b = [Cmd.setVolume g (normalizeVolume b)] := by
  simp [volumeCmds, hg]

theorem volumeCmds_both (g c : String) (hg : g ≠ "") (hc : c ≠ "") (a b : Nat) :
    volumeCmds ⟨some g, some c⟩ a b =
      [Cmd.setVolume g (normalizeVolume a), Cmd.setVolume c (normalizeVolume b)] := by
  simp [volumeCmds, hg, hc]

theorem arctisStepLists_cmds (ids : SinkIds) :
    ∀ (pairs : List (Nat × Nat)) (st : LoopState),
      ∀ l ∈ arctisStepLists ids st pairs, ∀ cmd ∈ l,
        ∃ a b, cmd ∈ volumeCmds ids a b := by
  intro pairs
  induction pairs with
  | nil =>
    intro st l hl
    simp [arctisStepLists] at hl
  | cons p rest ih =>
    intro st l hl
    simp only [arctisStepLists, List.mem_cons] at hl
    rcases hl with h | h
    · subst h
      intro cmd hc
      unfold processReport at hc
      split at hc
      · exact ⟨p.1, p.2, hc⟩
      · simp at hc
    · exact ih _ l h

/-- C1 (code-bug evidence): after provisioning succeeded, the Arctis-variant
process can exit without teardown having run.  A fatal USB error in the
polling loop logs and `break`s (lines 316-318) and `__main__` (lines
357-359) contains nothing after `start_modulator_signal()`, so an
immediate fatal error ends the run with an empty post-provision trace, and
no execution of the post-provision main ever issues a sink-destroy
command: destroy commands have not been issued for either virtual sink by
process exit, contradicting the claimed invariant. -/
theorem claim_C1_fatal_error_exit_without_teardown (ids : SinkIds)
    (events : List UsbEvent) :
    arctisMainTrace ids (UsbEvent.fatalError :: events) = [] ∧
    (arctisMainTrace ids events).filter isDestroy = [] :=
  ⟨rfl, runLoop_no_destroy ids events _⟩

/-- C10 (confirmed): the debounce memory starts as the `None` sentinel,
which differs from every raw byte value, so the first successfully read
report always takes the change branch: the last-applied values are updated
to the decoded pair for every identifier configuration — including when
neither sink identifier resolved and the issued command list is empty —
and with both identifiers resolved the first report issues one volume-set
command per sink. -/
theorem claim_C10_initial_sentinel (ids : SinkIds) (g c : Nat) :
    (processReport ids ⟨none, none⟩ g c).1 = ⟨some g, some c⟩ ∧
    (processReport ⟨none, none⟩ ⟨none, none⟩ g c).2 = [] ∧
    (processReport ⟨some "7", some "8"⟩ ⟨none, none⟩ g c).2 =
      [Cmd.setVolume "7" (normalizeVolume g), Cmd.setVolume "8" (normalizeVolume c)] := by
  refine ⟨?_, rfl, rfl⟩
  simp [processReport]

/-- C7 (confirmed): if exactly one sink identifier was resolved during
provisioning, every command the polling loop issues is a volume-set for
the resolved sink — the unresolved one is skipped silently, with no error
path — and commands are issued exactly on the debounced change steps. -/
theorem claim_C7_partial_resolution (g : String) (hg : g ≠ "")
    (pairs : List (Nat × Nat)) :
    (∀ l ∈ arctisStepLists ⟨some g, none⟩ ⟨none, none⟩ pairs,
      ∀ cmd ∈ l, ∃ q, cmd = Cmd.setVolume g q) ∧
    issuingSteps (arctisStepLists ⟨some g, none⟩ ⟨none, none⟩ pairs) =
      changedSteps none pairs ∧
    (∀ l ∈ arctisStepLists ⟨none, some g⟩ ⟨none, none⟩ pairs,
      ∀ cmd ∈ l, ∃ q, cmd = Cmd.setVolume g q) ∧
    issuingSteps (arctisStepLists ⟨none, some g⟩ ⟨none, none⟩ pairs) =
      changedSteps none pairs := by
  have hne1 : ∀ a b, volumeCmds ⟨some g, none⟩ a b ≠ [] := by
    intro a b
    rw [volumeCmds_game_only g hg]
    simp
  have hne2 : ∀ a b, volumeCmds ⟨none, some g⟩ a b ≠ [] := by
    intro a b
    rw [volumeCmds_chat_only g hg]
    simp
  refine ⟨?_, arctis_issuing _ hne1 pairs none, ?_, arctis_issuing _ hne2 pairs none⟩
  · intro l hl cmd hc
    obtain ⟨a, b, hmem⟩ := arctisStepLists_cmds _ pairs _ l hl cmd hc
    rw [volumeCmds_game_only g hg, List.mem_singleton] at hmem
    exact ⟨_, hmem⟩
  · intro l hl cmd hc
    obtain ⟨a, b, hmem⟩ := arctisStepLists_cmds _ pairs _ l hl cmd hc
    rw [volumeCmds_chat_only g hg, List.mem_singleton] at hmem
    exact ⟨_, hmem⟩

theorem claim_C7_witness :
    ("42" : String) ≠ "" ∧
    ((∀ l ∈ arctisStepLists ⟨some "42", none⟩ ⟨none, none⟩ [(50, 50), (50, 50), (60, 70)],
        ∀ cmd ∈ l, ∃ q, cmd = Cmd.setVolume "42" q) ∧
      issuingSteps (arctisStepLists ⟨some "42", none⟩ ⟨none, none⟩
        [(50, 50), (50, 50), (60, 70)]) =
        changedSteps none [(50, 50), (50, 50), (60, 70)] ∧
      (∀ l ∈ arctisStepLists ⟨none, some "42"⟩ ⟨none, none⟩ [(50, 50), (50, 50), (60, 70)],
        ∀ cmd ∈ l, ∃ q, cmd = Cmd.setVolume "42" q) ∧
      issuingSteps (arctisStepLists ⟨none, some "42"⟩ ⟨none, none⟩
        [(50, 50), (50, 50), (60, 70)]) =
        changedSteps none [(50, 50), (50, 50), (60, 70)]) :=
  ⟨by decide, claim_C7_partial_resolution "42" (by decide) [(50, 50), (50, 50), (60, 70)]⟩

/-- C9 (confirmed): every raw byte value v in [0,100] decoded from report
offsets 1 and 2 is passed on as the exact normalized level v/100: 0 maps
to 0, 100 maps to 1, 37 maps to 0.37, the level lies in [0,1], scaling by
100 recovers v, and the loop's volume-set commands carry exactly these
levels for both decoded bytes. -/
theorem claim_C9_normalization (v : Nat) (hv : v ≤ 100) :
    normalizeVolume 0 = 0 ∧ normalizeVolume 100 = 1 ∧
    normalizeVolume 37 = 37 / 100 ∧
    0 ≤ normalizeVolume v ∧ normalizeVolume v ≤ 1 ∧
    normalizeVolume v * 100 = (v : ℚ) ∧
    ∀ w, (processReport ⟨some "g", some "c"⟩ ⟨none, none⟩ v w).2 =
      [Cmd.setVolume "g" (normalizeVolume v), Cmd.setVolume "c" (normalizeVolume w)] := by
  refine ⟨by norm_num [normalizeVolume], by norm_num [normalizeVolume],
    by norm_num [normalizeVolume], ?_, ?_, ?_, fun w => rfl⟩
  · unfold normalizeVolume
    positivity
  · unfold normalizeVolume
    rw [div_le_one (by norm_num)]
    exact_mod_cast hv
  · unfold normalizeVolume
    exact div_mul_cancel₀ _ (by norm_num)

theorem claim_C9_witness :
    (37 : Nat) ≤ 100 ∧
    (normalizeVolume 0 = 0 ∧ normalizeVolume 100 = 1 ∧
      normalizeVolume 37 = 37 / 100 ∧
      0 ≤ normalizeVolume 37 ∧ normalizeVolume 37 ≤ 1 ∧
      normalizeVolume 37 * 100 = ((37 : Nat) : ℚ) ∧
      ∀ w, (processReport ⟨some "g", some "c"⟩ ⟨none, none⟩ 37 w).2 =
        [Cmd.setVolume "g" (normalizeVolume 37), Cmd.setVolume "c" (normalizeVolume w)]) :=
  ⟨by norm_num, claim_C9_normalization 37 (by norm_num)⟩

theorem truthy_some (s : String) (hs : s ≠ "") : truthy (some s) = true := by
  have hfe : s.isEmpty = false := by
    cases hEq : s.isEmpty
    · rfl
    · exact absurd ((String.isEmpty_iff s).mp hEq) hs
  simp [truthy, hfe]

/-- C8 (confirmed): the startup wait for the audio service is bounded: it
consults at most the first 10 probe outcomes (its result is unchanged by
anything beyond attempt 10), the retry bound is 10 with a fixed half-second
delay, and when all 10 attempts fail `_init_VAC` shuts down fatally with
exit code 1 and the logged reason "PipeWire not available". -/
theorem claim_C8_bounded_wait (good : Nat → Bool)
    (h : ∀ i, i < 10 → good i = false) :
    waitForPipewire good = false ∧
    pipewireMaxAttempts = 10 ∧ pipewireRetryDelay = 1 / 2 ∧
    (∀ g1 g2 : Nat → Bool, (∀ i, i < 10 → g1 i = g2 i) →
      waitForPipewire g1 = waitForPipewire g2) ∧
    initVacGate good =
      some (dieGracefully ⟨none, none, none⟩ false (some "PipeWire not available")) ∧
    (dieGracefully ⟨none, none, none⟩ false (some "PipeWire not available")).exitCode = 1 ∧
    (dieGracefully ⟨none, none, none⟩ false (some "PipeWire not available")).failureReason =
      some "PipeWire not available" := by
  have hbound : ∀ g1 g2 : Nat → Bool, (∀ i, i < 10 → g1 i = g2 i) →
      waitForPipewire g1 = waitForPipewire g2 := by
    intro g1 g2 hagree
    exact waitLoop_congr g1 g2 10 0 fun i _ h2 => hagree i (by omega)
  have hfalse : waitForPipewire good = false := by
    rw [hbound good (fun _ => false) fun i hi => h i hi]
    rfl
  refine ⟨hfalse, rfl, rfl, hbound, ?_, rfl, rfl⟩
  unfold initVacGate
  rw [hfalse]
  rfl

theorem claim_C8_witness :
    (∀ i, i < 10 → (fun _ => false : Nat → Bool) i = false) ∧
    (waitForPipewire (fun _ => false) = false ∧
      pipewireMaxAttempts = 10 ∧ pipewireRetryDelay = 1 / 2 ∧
      (∀ g1 g2 : Nat → Bool, (∀ i, i < 10 → g1 i = g2 i) →
        waitForPipewire g1 = waitForPipewire g2) ∧
      initVacGate (fun _ => false) =
        some (dieGracefully ⟨none, none, none⟩ false (some "PipeWire not available")) ∧
      (dieGracefully ⟨none, none, none⟩ false (some "PipeWire not available")).exitCode = 1 ∧
      (dieGracefully ⟨none, none, none⟩ false
        (some "PipeWire not available")).failureReason = some "PipeWire not available") :=
  ⟨fun _ _ => rfl, claim_C8_bounded_wait (fun _ => false) fun _ _ => rfl⟩

/-- C2 counterexample: the teardown routine has no one-shot guard, so a
termination signal delivered while a teardown is in progress (schedule
[false, false, true]: two actions execute, then a SIGTERM arrives)
re-enters `die_gracefully` and the destroy-game command is executed twice
in one process — the claim's "exactly once, no double-destroy" fails. -/
theorem claim_C2_counterexample :
    (shutdownMachine 20 [false, false, true] [teardownSeq]).count TAct.destroyGame = 2 := by
  decide

/-- C2 (amended): teardown is not guarded against re-entry, so at-most-once
only holds for executions in which no termination signal is delivered while
a teardown is already in progress: under any such schedule the destroy-game
action runs at most once (every completed teardown ends in process exit),
and a single trigger runs it exactly once.  A signal delivered mid-teardown
re-runs the whole sequence (see the counterexample). -/
theorem claim_C2_amended (fuel : Nat) (sched : List Bool)
    (h : ∀ b ∈ sched, b = false) :
    (shutdownMachine fuel sched [teardownSeq]).count TAct.destroyGame ≤ 1 ∧
    (shutdownMachine 20 [] [teardownSeq]).count TAct.destroyGame = 1 := by
  refine ⟨?_, by decide⟩
  have hle := shutdownMachine_count_le TAct.destroyGame fuel sched [teardownSeq] h
  have h1 : stackCount TAct.destroyGame [teardownSeq] = 1 := by decide
  exact h1 ▸ hle

theorem claim_C2_witness :
    (∀ b ∈ ([] : List Bool), b = false) ∧
    ((shutdownMachine 20 [] [teardownSeq]).count TAct.destroyGame ≤ 1 ∧
      (shutdownMachine 20 [] [teardownSeq]).count TAct.destroyGame = 1) :=
  ⟨fun b hb => absurd hb (List.not_mem_nil b),
    claim_C2_amended 20 [] fun b hb => absurd hb (List.not_mem_nil b)⟩

/-- C3 counterexample: on the spec's own example sequence the AllSound
variant's polling loop (which the claim also cites) issues commands at all
5 steps, not at the 3 changed indices; the debouncing behaviour holds only
in the Arctis variant. -/
theorem claim_C3_counterexample :
    issuingSteps (allsoundStepLists ⟨some "7", some "8"⟩
      [(50, 50), (50, 50), (60, 50), (60, 50), (60, 70)]) = 5 ∧
    issuingSteps (arctisStepLists ⟨some "7", some "8"⟩ ⟨none, none⟩
      [(50, 50), (50, 50), (60, 50), (60, 50), (60, 70)]) = 3 := by
  decide

/-- C3 (amended): in the debouncing Arctis variant, with both identifiers
resolved, volume-set commands are issued exactly on the indices where the
decoded pair differs from the previous pair (the first pair always counts
as a change); the AllSound variant has no debounce memory and issues
commands on every successfully read report. -/
theorem claim_C3_amended (g c : String) (hg : g ≠ "") (hc : c ≠ "")
    (pairs : List (Nat × Nat)) :
    issuingSteps (arctisStepLists ⟨some g, some c⟩ ⟨none, none⟩ pairs) =
      changedSteps none pairs ∧
    issuingSteps (allsoundStepLists ⟨some g, some c⟩ pairs) = pairs.length := by
  have hne : ∀ a b, volumeCmds ⟨some g, some c⟩ a b ≠ [] := by
    intro a b
    rw [volumeCmds_both g c hg hc]
    simp
  refine ⟨arctis_issuing _ hne pairs none, ?_⟩
  induction pairs with
  | nil => rfl
  | cons p rest ih =>
    simp only [allsoundStepLists, List.map_cons] at ih ⊢
    rw [issuingSteps_cons]
    have h1 : (volumeCmds ⟨some g, some c⟩ p.1 p.2).isEmpty = false := by
      cases hEq : (volumeCmds ⟨some g, some c⟩ p.1 p.2).isEmpty
      · rfl
      · exact absurd (List.isEmpty_iff.mp hEq) (hne p.1 p.2)
    rw [h1, ih]
    simp [Nat.add_comm]

theorem claim_C3_witness :
    ("7" : String) ≠ "" ∧ ("8" : String) ≠ "" ∧
    (issuingSteps (arctisStepLists ⟨some "7", some "8"⟩ ⟨none, none⟩
        [(50, 50), (60, 50), (60, 70)]) =
      changedSteps none [(50, 50), (60, 50), (60, 70)] ∧
    issuingSteps (allsoundStepLists ⟨some "7", some "8"⟩
        [(50, 50), (60, 50), (60, 70)]) =
      ([(50, 50), (60, 50), (60, 70)] : List (Nat × Nat)).length) :=
  ⟨by decide, by decide,
    claim_C3_amended "7" "8" (by decide) (by decide) [(50, 50), (60, 50), (60, 70)]⟩

/-- C4 counterexample: the AllSound variant's teardown after a
sink-creation failure issues no command at all — its default-restoration
line is commented out — even though the pre-session default sink name
"sysdef" was captured, so the claimed restore of a captured default does
not happen there. -/
theorem claim_C4_counterexample :
    (sinkCreationFailureShutdownAllSound (some "sysdef")).cmds = [] := by
  rfl

/-- C4 (amended): on sink-creation failure both variants skip the destroy
commands and exit with code 1 and the logged reason "VAC node adapter"
naming the virtual-sink creation step; the Arctis variant additionally
restores the captured pre-session default — by its captured numeric id
when one is truthy, else via the teardown-time name lookup when the
captured name is not the "auto" sentinel — while the AllSound variant
issues no restore command (its restore line is commented out; it also
never changed the default during provisioning). -/
theorem claim_C4_amended (id : String) (hid : id ≠ "") (dn lk : Option String) :
    (sinkCreationFailureShutdown ⟨some id, dn, lk⟩).cmds = [Cmd.setDefault id] ∧
    (sinkCreationFailureShutdown ⟨some id, dn, lk⟩).exitCode = 1 ∧
    (sinkCreationFailureShutdown ⟨some id, dn, lk⟩).failureReason =
      some "VAC node adapter" ∧
    (∀ n lid : String, n ≠ "auto" →
      (sinkCreationFailureShutdown ⟨none, some n, some lid⟩).cmds =
        [Cmd.setDefault lid]) ∧
    (sinkCreationFailureShutdownAllSound dn).cmds = [] ∧
    (sinkCreationFailureShutdownAllSound dn).exitCode = 1 ∧
    (sinkCreationFailureShutdownAllSound dn).failureReason = some "VAC node adapter" := by
  refine ⟨?_, rfl, rfl, ?_, rfl, rfl, rfl⟩
  · unfold sinkCreationFailureShutdown dieGracefully
    rw [truthy_some id hid]
    rfl
  · intro n lid hn
    unfold sinkCreationFailureShutdown dieGracefully restoreByName
    simp [truthy, hn]

theorem claim_C4_witness :
    ("97" : String) ≠ "" ∧
    ((sinkCreationFailureShutdown ⟨some "97", some "sysdef", none⟩).cmds =
        [Cmd.setDefault "97"] ∧
      (sinkCreationFailureShutdown ⟨some "97", some "sysdef", none⟩).exitCode = 1 ∧
      (sinkCreationFailureShutdown ⟨some "97", some "sysdef", none⟩).failureReason =
        some "VAC node adapter" ∧
      (∀ n lid : String, n ≠ "auto" →
        (sinkCreationFailureShutdown ⟨none, some n, some lid⟩).cmds =
          [Cmd.setDefault lid]) ∧
      (sinkCreationFailureShutdownAllSound (some "sysdef")).cmds = [] ∧
      (sinkCreationFailureShutdownAllSound (some "sysdef")).exitCode = 1 ∧
      (sinkCreationFailureShutdownAllSound (some "sysdef")).failureReason =
        some "VAC node adapter") :=
  ⟨by decide, claim_C4_amended "97" (by decide) (some "sysdef") none⟩

/-- C5 counterexample: device selection does not follow enumeration order.
With the Nova 7 WOW Edition (0x1038, 0x227a) enumerated before an Arctis
7+ (0x1038, 0x220e), the code's `find(0x220e) or find(0x227a)` chain picks
the 0x220e device, while "the first enumerated device matching any pair"
is the 0x227a one. -/
theorem claim_C5_counterexample :
    locateDevice [(0x1038, 0x227a), (0x1038, 0x220e)] = some (0x1038, 0x220e) ∧
    firstMatchAnyPair [(0x1038, 0x227a), (0x1038, 0x220e)] = some (0x1038, 0x227a) := by
  decide

/-- C5 (amended): selection precedence is by identity pair, not enumeration
order: whenever some device matches (0x1038, 0x220e) the selection equals
the first such device, consulting the (0x1038, 0x227a) pair only when no
device matches the first pair.  When no device matches either pair, the
init fails fatally with exit code 1 before any audio-service command is
issued, but not via a DeviceNotFound error: `usb.core.find` returns `None`
without raising, the interface-selection step then raises `TypeError`, and
its handler's own `die_gracefully(exc=True, ...)` call raises `TypeError`
again (no such keyword), which escapes uncaught. -/
theorem claim_C5_amended (devices : List (Nat × Nat))
    (h : ∀ d ∈ devices, d ≠ ((0x1038, 0x220e) : Nat × Nat) ∧
      d ≠ ((0x1038, 0x227a) : Nat × Nat)) :
    locateAndInit devices = Except.error (InitFailure.uncaughtTypeError, [], 1) ∧
    ∀ ds : List (Nat × Nat), ((0x1038, 0x220e) : Nat × Nat) ∈ ds →
      locateDevice ds = usbFind ds 0x1038 0x220e ∧ (usbFind ds 0x1038 0x220e).isSome := by
  constructor
  · have h1 : usbFind devices 0x1038 0x220e = none := by
      apply usbFind_eq_none
      intro d hd hcon
      exact (h d hd).1 (Prod.ext hcon.1 hcon.2)
    have h2 : usbFind devices 0x1038 0x227a = none := by
      apply usbFind_eq_none
      intro d hd hcon
      exact (h d hd).2 (Prod.ext hcon.1 hcon.2)
    unfold locateAndInit locateDevice
    rw [h1, h2]
  · intro ds hds
    have hs := usbFind_isSome _ _ ds hds
    refine ⟨?_, hs⟩
    unfold locateDevice
    cases hu : usbFind ds 0x1038 0x220e with
    | some d => rfl
    | none =>
      rw [hu] at hs
      simp at hs

theorem claim_C5_witness :
    (∀ d ∈ ([(1, 2)] : List (Nat × Nat)), d ≠ ((0x1038, 0x220e) : Nat × Nat) ∧
      d ≠ ((0x1038, 0x227a) : Nat × Nat)) ∧
    (locateAndInit [(1, 2)] = Except.error (InitFailure.uncaughtTypeError, [], 1) ∧
      ∀ ds : List (Nat × Nat), ((0x1038, 0x220e) : Nat × Nat) ∈ ds →
        locateDevice ds = usbFind ds 0x1038 0x220e ∧ (usbFind ds 0x1038 0x220e).isSome) :=
  ⟨by decide, claim_C5_amended [(1, 2)] (by decide)⟩

/-- C6 counterexample: in the Arctis variant, when an Arctis-branded
hardware sink ("arctis7") is identified, the link commands target its
playback ports and not those of the captured pre-session default
("sysdef"), so the monitors are not linked to the pre-session default as
the claim states. -/
theorem claim_C6_counterexample :
    arctisLinkSection "sysdef" (some "arctis7") ≠ arctisSpecLinks "sysdef" := by
  decide

/-- C6 (amended): both virtual sinks' FL and FR monitor outputs are linked
to the playback_FL/playback_FR ports of a single target; in the AllSound
variant that target is always the captured pre-session default, while in
the Arctis variant it is the identified Arctis hardware sink when the scan
found one, falling back to the captured pre-session default otherwise. -/
theorem claim_C6_amended (sysd a : String) (ha : a ≠ "") :
    arctisLinkSection sysd none = arctisSpecLinks sysd ∧
    arctisLinkSection sysd (some a) = arctisSpecLinks a ∧
    allsoundLinkSection sysd = allsoundSpecLinks sysd := by
  refine ⟨rfl, ?_, rfl⟩
  simp [arctisLinkSection, arctisSpecLinks, ha]

theorem claim_C6_witness :
    ("arctis7" : String) ≠ "" ∧
    (arctisLinkSection "sysdef" none = arctisSpecLinks "sysdef" ∧
      arctisLinkSection "sysdef" (some "arctis7") = arctisSpecLinks "arctis7" ∧
      allsoundLinkSection "sysdef" = allsoundSpecLinks "sysdef") :=
  ⟨by decide, claim_C6_amended "sysdef" "arctis7" (by decide)⟩
